import Mathlib

/-!
# Verification of the asset-manager web application

A shallow embedding of the API handlers, the database schema and the
dashboard warranty-status computation of the asset-manager repository,
together with theorems settling the frozen specification claims.

Conventions of the embedding:
* the relational store is a `Db` structure of row lists, mirroring
  `supabase-schema.sql`;
* the identity provider is an oracle `resolve : String → Option String`
  mapping a bearer token to a user id;
* JavaScript request-body values are modelled by `JsVal`, with the
  JavaScript truthiness rules;
* calendar dates are `(year, month, day)` triples and JavaScript `Date`
  month arithmetic (`setMonth`) is modelled by `daysFromCivil`, which is
  linear in the day argument exactly as ECMAScript `MakeDay` is, so day
  overflow normalises the same way.
-/

namespace AssetManager

/-! ## JavaScript values and truthiness -/

/-- A JavaScript request-body value, as far as the handlers inspect one. -/
inductive JsVal where
  | undef : JsVal
  | null : JsVal
  | str (s : String) : JsVal
  | num (n : Int) : JsVal
deriving DecidableEq, Repr

/-- JavaScript truthiness: `undefined`, `null`, `""` and `0` are falsy. -/
def JsVal.truthy : JsVal → Bool
  | .undef => false
  | .null => false
  | .str s => s ≠ ""
  | .num n => n ≠ 0

/-! ## JavaScript string primitives

Lean core string functions do not reduce well in the kernel, so the
JavaScript string operations used by the handlers are modelled over
`String.data` character lists. -/

/-- JavaScript `String.prototype.trim()` (ASCII whitespace both ends). -/
def jsTrim (s : String) : String :=
  ⟨((s.data.dropWhile Char.isWhitespace).reverse.dropWhile Char.isWhitespace).reverse⟩

/-- ASCII lower-casing of one character. -/
def lowerChar (c : Char) : Char :=
  if 'A' ≤ c ∧ c ≤ 'Z' then Char.ofNat (c.toNat + 32) else c

/-- JavaScript `String.prototype.toLowerCase()` (ASCII). -/
def jsToLower (s : String) : String := ⟨s.data.map lowerChar⟩

/-- JavaScript `String.prototype.startsWith(pre)`. -/
def jsStartsWith (s pre : String) : Bool := pre.data.isPrefixOf s.data

/-- JavaScript `String.prototype.substring(n)` for ASCII strings. -/
def jsDrop (s : String) (n : Nat) : String := ⟨s.data.drop n⟩

/-- Code-point-ascending lexicographic order on character lists, the
model of the store's ascending text ordering. -/
def lexLe : List Char → List Char → Bool
  | [], _ => true
  | _ :: _, [] => false
  | x :: xs, y :: ys => if x = y then lexLe xs ys else decide (x < y)

theorem lexLe_total : ∀ a b : List Char, lexLe a b = true ∨ lexLe b a = true := by
  intro a
  induction a with
  | nil => intro b; left; rfl
  | cons x xs ih =>
    intro b
    cases b with
    | nil => right; rfl
    | cons y ys =>
      by_cases hxy : x = y
      · subst hxy
        rcases ih ys with h | h
        · left; simp [lexLe, h]
        · right; simp [lexLe, h]
      · rcases lt_or_gt_of_ne hxy with h | h
        · left; simp [lexLe, hxy, h]
        · right; simp [lexLe, Ne.symm hxy, h]

/-! ## Sorting (the store's `order(column, ascending/descending)`) -/

/-- Insert into a list sorted by `le`. -/
def insertSorted {α : Type} (le : α → α → Bool) (x : α) : List α → List α
  | [] => [x]
  | y :: ys => if le x y then x :: y :: ys else y :: insertSorted le x ys

/-- Insertion sort by `le`; models the store's `order(...)` clause. -/
def sortBy {α : Type} (le : α → α → Bool) : List α → List α
  | [] => []
  | x :: xs => insertSorted le x (sortBy le xs)

theorem mem_insertSorted {α : Type} (le : α → α → Bool) (x a : α) (l : List α) :
    a ∈ insertSorted le x l ↔ a = x ∨ a ∈ l := by
  induction l with
  | nil => simp [insertSorted]
  | cons y ys ih =>
    simp only [insertSorted]
    split_ifs with h
    · simp [or_comm, or_assoc, or_left_comm]
    · simp [ih]
      tauto

theorem mem_sortBy {α : Type} (le : α → α → Bool) (a : α) (l : List α) :
    a ∈ sortBy le l ↔ a ∈ l := by
  induction l with
  | nil => simp [sortBy]
  | cons x xs ih => simp [sortBy, mem_insertSorted, ih]

theorem pairwise_insertSorted {α : Type} (le : α → α → Bool)
    (htot : ∀ a b : α, le a b = true ∨ le b a = true)
    (htrans : ∀ a b c : α, le a b = true → le b c = true → le a c = true)
    (x : α) (l : List α) (h : l.Pairwise (fun a b => le a b = true)) :
    (insertSorted le x l).Pairwise (fun a b => le a b = true) := by
  induction l with
  | nil => simp [insertSorted]
  | cons y ys ih =>
    rcases List.pairwise_cons.mp h with ⟨hy, hys⟩
    simp only [insertSorted]
    split_ifs with hle
    · refine List.pairwise_cons.mpr ⟨?_, h⟩
      intro b hb
      rcases List.mem_cons.mp hb with hb | hb
      · rw [hb]; exact hle
      · exact htrans x y b hle (hy b hb)
    · refine List.pairwise_cons.mpr ⟨?_, ih hys⟩
      intro b hb
      rcases (mem_insertSorted le x b ys).mp hb with hb | hb
      · rw [hb]
        rcases htot x y with hxy | hyx
        · exact absurd hxy hle
        · exact hyx
      · exact hy b hb

theorem pairwise_sortBy {α : Type} (le : α → α → Bool)
    (htot : ∀ a b : α, le a b = true ∨ le b a = true)
    (htrans : ∀ a b c : α, le a b = true → le b c = true → le a c = true)
    (l : List α) :
    (sortBy le l).Pairwise (fun a b => le a b = true) := by
  induction l with
  | nil => simp [sortBy]
  | cons x xs ih => exact pairwise_insertSorted le htot htrans x _ ih

theorem lexLe_trans :
    ∀ a b c : List Char, lexLe a b = true → lexLe b c = true → lexLe a c = true := by
  intro a
  induction a with
  | nil => intro b c _ _; rfl
  | cons x xs ih =>
    intro b c hab hbc
    cases b with
    | nil => simp [lexLe] at hab
    | cons y ys =>
      cases c with
      | nil => simp [lexLe] at hbc
      | cons z zs =>
        simp only [lexLe] at hab hbc ⊢
        by_cases hxy : x = y
        · subst hxy
          simp only [if_pos rfl] at hab
          by_cases hxz : x = z
          · subst hxz
            simp only [if_pos rfl] at hbc ⊢
            exact ih ys zs hab hbc
          · simp only [if_neg hxz] at hbc ⊢
            exact hbc
        · simp only [if_neg hxy, decide_eq_true_eq] at hab
          by_cases hyz : y = z
          · subst hyz
            simp only [if_neg hxy, decide_eq_true_eq]
            exact hab
          · simp only [if_neg hyz, decide_eq_true_eq] at hbc
            have hxz : x < z := lt_trans hab hbc
            simp only [if_neg (ne_of_lt hxz), decide_eq_true_eq]
            exact hxz

/-! ## Calendar dates and the dashboard warranty-status computation

`getWarrantyStatus` in the warranty-centre dashboard does

```js
const regDate = new Date(registrationDate);
const expiryDate = new Date(regDate);
expiryDate.setMonth(expiryDate.getMonth() + warrantyMonths);
const daysRemaining = Math.floor((expiryDate - now) / 86400000);
if (daysRemaining < 0) return Expired;
else if (daysRemaining < 30) return ExpiringSoon;
else return Active;
```

We model instants with equal time of day by calendar dates, so the
`Math.floor` of the millisecond difference is the exact day difference.
-/

/-- A calendar date; `m` ranges over `1..12` for genuine dates. -/
structure Date where
  y : Int
  m : Int
  d : Int
deriving DecidableEq, Repr

/-- Day count of a civil date from the standard epoch (Hinnant's
`days_from_civil`; `/` and `%` on `Int` are Euclidean, which is floor
division for the positive divisors used).  The formula is linear in `d`,
so a day past the end of the month rolls over exactly as ECMAScript
`MakeDay` does. -/
def daysFromCivil (y m d : Int) : Int :=
  let yy := if m ≤ 2 then y - 1 else y
  let era := yy / 400
  let yoe := yy - era * 400
  let doy := (153 * (if m > 2 then m - 3 else m + 9) + 2) / 5 + d - 1
  let doe := yoe * 365 + yoe / 4 - yoe / 100 + doy
  era * 146097 + doe - 719468

/-- `Date.setMonth (getMonth () + k)` followed by reading the day number:
the month index is renormalised with floor division and the (possibly
overflowing) day-of-month is resolved by `daysFromCivil`. -/
def jsAddMonthsDays (dt : Date) (k : Int) : Int :=
  let t := dt.m + k - 1
  daysFromCivil (dt.y + t / 12) (t % 12 + 1) dt.d

/-- The date exactly `k` calendar months before `dt` (the inverse of
`setMonth`-addition on days `1..28`, where no clamping can occur). -/
def dateMinusMonths (dt : Date) (k : Int) : Date :=
  let t := dt.m - k - 1
  ⟨dt.y + t / 12, t % 12 + 1, dt.d⟩

/-- The derived warranty status shown by the dashboard. -/
inductive WStatus where
  | Expired : WStatus
  | ExpiringSoon : WStatus
  | Active : WStatus
deriving DecidableEq, Repr

/-- `daysRemaining` in `getWarrantyStatus`: `Math.floor((expiry − now) /
86400000)`, the exact day difference for instants with equal time of
day. -/
def daysRemainingOf (reg : Date) (warrantyMonths : Int) (now : Date) : Int :=
  jsAddMonthsDays reg warrantyMonths - daysFromCivil now.y now.m now.d

/-- `getWarrantyStatus` from the warranty-centre dashboard, for a
registration date and a current instant with equal time of day. -/
def getWarrantyStatus (reg : Date) (warrantyMonths : Int) (now : Date) : WStatus :=
  if daysRemainingOf reg warrantyMonths now < 0 then .Expired
  else if daysRemainingOf reg warrantyMonths now < 30 then .ExpiringSoon
  else .Active

theorem getWarrantyStatus_expired (reg : Date) (p : Int) (now : Date)
    (h : daysRemainingOf reg p now < 0) : getWarrantyStatus reg p now = .Expired := by
  unfold getWarrantyStatus
  rw [if_pos h]

theorem getWarrantyStatus_expiringSoon (reg : Date) (p : Int) (now : Date)
    (h0 : 0 ≤ daysRemainingOf reg p now) (h30 : daysRemainingOf reg p now < 30) :
    getWarrantyStatus reg p now = .ExpiringSoon := by
  unfold getWarrantyStatus
  rw [if_neg (by omega), if_pos h30]

theorem getWarrantyStatus_active (reg : Date) (p : Int) (now : Date)
    (h : 30 ≤ daysRemainingOf reg p now) : getWarrantyStatus reg p now = .Active := by
  unfold getWarrantyStatus
  rw [if_neg (by omega), if_neg (by omega)]

/-! ## The relational store (`supabase-schema.sql`)

Rows keep the fields the API layer reads or writes.  Fields the handlers
copy verbatim from a request body are stored as `JsVal` (the handlers do
not validate their shape); fields the handlers always process first
(trimmed or lower-cased strings, generated ids) are `String`.  The
`created_at`/`updated_at` timestamp columns exist in the schema but are
never filtered on by any handler; only `assets.created_at` (an ordering
key) is modelled. -/

/-- A `users` table row. -/
structure UserRow where
  id : String
  email : String
  name : JsVal
  user_type : String
deriving DecidableEq, Repr

/-- A `departments` table row. -/
structure DepartmentRow where
  id : String
  name : String
deriving DecidableEq, Repr

/-- A `categories` table row. -/
structure CategoryRow where
  id : String
  name : String
deriving DecidableEq, Repr

/-- An `assets` table row. -/
structure AssetRow where
  id : String
  name : JsVal
  category_id : JsVal
  department_id : JsVal
  date_purchased : JsVal
  cost : JsVal
  created_by : String
  created_at : Int
deriving DecidableEq, Repr

/-- The relational store. -/
structure Db where
  users : List UserRow
  departments : List DepartmentRow
  categories : List CategoryRow
  assets : List AssetRow
deriving DecidableEq, Repr

/-- The store together with the identity provider's account list. -/
structure World where
  idp : List String
  db : Db
deriving DecidableEq, Repr

/-- The columns of the `assets` table in `supabase-schema.sql`. -/
def assetsColumns : List String :=
  ["id", "name", "category_id", "department_id", "date_purchased",
   "cost", "created_by", "created_at", "updated_at"]

/-- The columns of the `users` table in `supabase-schema.sql`. -/
def usersColumns : List String :=
  ["id", "email", "name", "user_type", "created_at", "updated_at"]

/-- The value an asset row holds in a (modelled) column. -/
def AssetRow.colVal (a : AssetRow) (c : String) : Option JsVal :=
  if c = "id" then some (.str a.id)
  else if c = "name" then some a.name
  else if c = "category_id" then some a.category_id
  else if c = "department_id" then some a.department_id
  else if c = "date_purchased" then some a.date_purchased
  else if c = "cost" then some a.cost
  else if c = "created_by" then some (.str a.created_by)
  else if c = "created_at" then some (.num a.created_at)
  else none

/-- The value a user row holds in a (modelled) column. -/
def UserRow.colVal (u : UserRow) (c : String) : Option JsVal :=
  if c = "id" then some (.str u.id)
  else if c = "email" then some (.str u.email)
  else if c = "name" then some u.name
  else if c = "user_type" then some (.str u.user_type)
  else none

/-- `from("assets").select(...).eq(col, v)`: the store rejects a filter
on a column that is not in the table's schema (PostgREST error 42703);
otherwise it returns the matching rows. -/
def queryAssetsEq (db : Db) (c : String) (v : JsVal) : Except Unit (List AssetRow) :=
  if c ∈ assetsColumns then
    .ok (db.assets.filter (fun a => a.colVal c == some v))
  else .error ()

/-- `from("users").select(...).eq(col, v)`, with the same column check. -/
def queryUsersEq (db : Db) (c : String) (v : JsVal) : Except Unit (List UserRow) :=
  if c ∈ usersColumns then
    .ok (db.users.filter (fun u => u.colVal c == some v))
  else .error ()

/-! ## The authorization gate -/

/-- Server configuration: the public Supabase URL/key pair used by
`verifyAuth`, and the service-role client `supabaseAdmin`. -/
structure Env where
  urlConfigured : Bool
  adminConfigured : Bool
deriving DecidableEq, Repr

/-- The identity provider as an oracle from bearer tokens to user ids
(`supabase.auth.getUser(token)`). -/
def Resolver : Type := String → Option String

/-- Extract the bearer token:
`authHeader.startsWith("Bearer ")` then `authHeader.substring(7)`. -/
def bearerToken (authHeader : Option String) : Option String :=
  match authHeader with
  | none => none
  | some h => if jsStartsWith h "Bearer " then some (jsDrop h 7) else none

/-- The common part of every `verifyAuth`/`verifyAdmin`: header
extraction, configuration check, token resolution. -/
def verifyAuthUser (env : Env) (resolve : Resolver) (authHeader : Option String) :
    Option String :=
  match bearerToken authHeader with
  | none => none
  | some tok => if env.urlConfigured then resolve tok else none

/-- `userData?.user_type || "user"` after
`from("users").select("user_type").eq("id", user.id).single()`. -/
def userTypeOf (db : Db) (uid : String) : String :=
  match db.users.find? (fun u => u.id = uid) with
  | some u => if u.user_type = "" then "user" else u.user_type
  | none => "user"

/-- `verifyAuth` of the assets handler: resolves the caller and derives
its `user_type` with a `"user"` fallback. -/
def verifyAuthAssets (env : Env) (resolve : Resolver) (db : Db)
    (authHeader : Option String) : Option (String × String) :=
  (verifyAuthUser env resolve authHeader).map (fun uid => (uid, userTypeOf db uid))

/-- `verifyAdmin`, shared shape of all admin-gated handlers: `null` both
when the token does not resolve and when the resolved user's `user_type`
is not `"admin"`. -/
def verifyAdmin (env : Env) (resolve : Resolver) (db : Db)
    (authHeader : Option String) : Option String :=
  match verifyAuthUser env resolve authHeader with
  | none => none
  | some uid =>
    match db.users.find? (fun u => u.id = uid) with
    | some u => if u.user_type = "admin" then some uid else none
    | none => none

/-! ## Small JavaScript helpers shared by the handlers -/

/-- `x || dflt` on a `JsVal`. -/
def jsOr (v : JsVal) (dflt : JsVal) : JsVal := if v.truthy then v else dflt

/-- `x?.field || dflt` where the field is a string. -/
def jsOrStr (v : Option String) (dflt : String) : String :=
  match v with
  | some s => if s = "" then dflt else s
  | none => dflt

/-- `x?.field || dflt` where the field is an arbitrary value. -/
def jsOrVal (v : Option JsVal) (dflt : JsVal) : JsVal :=
  match v with
  | some x => if x.truthy then x else dflt
  | none => dflt

/-- `parseFloat` as the handlers use it: the identity on numbers (the
embedding has no floating-point values; no claim inspects `cost`). -/
def jsParseFloat (v : JsVal) : JsVal :=
  match v with
  | .num n => .num n
  | v => v

/-! ## The assets handler (`/api/assets`, list and create) -/

/-- The request body of an asset create. -/
structure AssetBody where
  name : JsVal
  category_id : JsVal
  department_id : JsVal
  date_purchased : JsVal
  cost : JsVal
deriving DecidableEq, Repr

/-- One transformed row of the asset-list response (nested join names
flattened with `|| "N/A"` / `|| "Unknown"` fallbacks). -/
structure AssetOut where
  id : String
  name : JsVal
  category : String
  department : String
  date_purchased : JsVal
  cost : JsVal
  created_by : String
  created_by_name : JsVal
deriving DecidableEq, Repr

/-- `categories:category_id (name)` join of one asset. -/
def categoryNameOf (db : Db) (v : JsVal) : Option String :=
  (db.categories.find? (fun c => JsVal.str c.id == v)).map (fun c => c.name)

/-- `departments:department_id (name)` join of one asset. -/
def departmentNameOf (db : Db) (v : JsVal) : Option String :=
  (db.departments.find? (fun d => JsVal.str d.id == v)).map (fun d => d.name)

/-- `users:created_by (name)` join of one asset. -/
def userNameOf (db : Db) (uid : String) : Option JsVal :=
  (db.users.find? (fun u => u.id = uid)).map (fun u => u.name)

/-- `users:created_by (email)` join of one asset. -/
def userEmailOf (db : Db) (uid : String) : Option String :=
  (db.users.find? (fun u => u.id = uid)).map (fun u => u.email)

/-- The per-row flattening `transformedAssets` performs. -/
def transformAsset (db : Db) (a : AssetRow) : AssetOut :=
  { id := a.id
    name := a.name
    category := jsOrStr (categoryNameOf db a.category_id) "N/A"
    department := jsOrStr (departmentNameOf db a.department_id) "N/A"
    date_purchased := a.date_purchased
    cost := jsParseFloat a.cost
    created_by := a.created_by
    created_by_name := jsOrVal (userNameOf db a.created_by) (.str "Unknown") }

/-- Result of one assets-handler request. -/
structure AssetsResult where
  status : Nat
  assets : List AssetOut
  db : Db
deriving DecidableEq, Repr

/-- Descending `created_at` order of the asset listing. -/
def assetCreatedDesc (a b : AssetRow) : Bool := b.created_at ≤ a.created_at

/-- The assets API handler: `GET` lists (non-admin callers are scoped to
`created_by = caller` before the query runs), `POST` creates.  `newId`
and `now` are the store-generated id and timestamp of an insert, and
`insertOk` is false when the insert fails. -/
def assetsHandler (env : Env) (resolve : Resolver) (db : Db) (method : String)
    (authHeader : Option String) (body : AssetBody) (newId : String) (now : Int)
    (insertOk : Bool) : AssetsResult :=
  if ¬env.adminConfigured then ⟨500, [], db⟩
  else
    match verifyAuthAssets env resolve db authHeader with
    | none => ⟨401, [], db⟩
    | some (uid, utype) =>
      if method = "GET" then
        let visible := if utype ≠ "admin"
          then db.assets.filter (fun a => a.created_by = uid)
          else db.assets
        ⟨200, (sortBy assetCreatedDesc visible).map (transformAsset db), db⟩
      else if method = "POST" then
        if ¬body.name.truthy ∨ ¬body.category_id.truthy ∨ ¬body.department_id.truthy
            ∨ ¬body.date_purchased.truthy ∨ body.cost = .undef then
          ⟨400, [], db⟩
        else if insertOk then
          ⟨201, [],
            { db with assets := db.assets ++
                [{ id := newId, name := body.name, category_id := body.category_id,
                   department_id := body.department_id,
                   date_purchased := body.date_purchased,
                   cost := jsParseFloat body.cost, created_by := uid,
                   created_at := now }] }⟩
        else ⟨500, [], db⟩
      else ⟨405, [], db⟩

/-! ## The departments handler (`/api/departments`, list and create) -/

/-- Result of one departments-handler request. -/
structure DeptResult where
  status : Nat
  departments : List DepartmentRow
  db : Db
deriving DecidableEq, Repr

/-- Ascending name order of department rows. -/
def deptNameLe (a b : DepartmentRow) : Bool := lexLe a.name.data b.name.data

/-- The create-validation and insert shared by the departments and
categories handlers: `!name || !name.trim()` rejects with 400, a
non-string truthy `name` makes `name.trim()` throw (caught as 500),
otherwise the trimmed name is stored. -/
def trimmedNameOf (nameBody : JsVal) : Except Nat String :=
  match nameBody with
  | .str s => if s = "" ∨ jsTrim s = "" then .error 400 else .ok (jsTrim s)
  | v => if ¬v.truthy then .error 400 else .error 500

/-- The departments API handler: `GET` lists in ascending name order for
any authenticated caller, `POST` creates (admin only). -/
def departmentsHandler (env : Env) (resolve : Resolver) (db : Db) (method : String)
    (authHeader : Option String) (nameBody : JsVal) (newId : String)
    (insertOk : Bool) : DeptResult :=
  if ¬env.adminConfigured then ⟨500, [], db⟩
  else if method = "GET" then
    match verifyAuthUser env resolve authHeader with
    | none => ⟨401, [], db⟩
    | some _ => ⟨200, sortBy deptNameLe db.departments, db⟩
  else if method = "POST" then
    match verifyAdmin env resolve db authHeader with
    | none => ⟨403, [], db⟩
    | some _ =>
      match trimmedNameOf nameBody with
      | .error st => ⟨st, [], db⟩
      | .ok trimmed =>
        if insertOk then
          ⟨201, [⟨newId, trimmed⟩],
            { db with departments := db.departments ++ [⟨newId, trimmed⟩] }⟩
        else ⟨500, [], db⟩
  else ⟨405, [], db⟩

/-! ## The categories handler (`/api/categories`, list and create) -/

/-- Result of one categories-handler request. -/
structure CatResult where
  status : Nat
  categories : List CategoryRow
  db : Db
deriving DecidableEq, Repr

/-- Ascending name order of category rows. -/
def catNameLe (a b : CategoryRow) : Bool := lexLe a.name.data b.name.data

/-- The categories API handler: `GET` lists in ascending name order for
any authenticated caller, `POST` creates (admin only), storing the
trimmed name. -/
def categoriesHandler (env : Env) (resolve : Resolver) (db : Db) (method : String)
    (authHeader : Option String) (nameBody : JsVal) (newId : String)
    (insertOk : Bool) : CatResult :=
  if ¬env.adminConfigured then ⟨500, [], db⟩
  else if method = "GET" then
    match verifyAuthUser env resolve authHeader with
    | none => ⟨401, [], db⟩
    | some _ => ⟨200, sortBy catNameLe db.categories, db⟩
  else if method = "POST" then
    match verifyAdmin env resolve db authHeader with
    | none => ⟨403, [], db⟩
    | some _ =>
      match trimmedNameOf nameBody with
      | .error st => ⟨st, [], db⟩
      | .ok trimmed =>
        if insertOk then
          ⟨201, [⟨newId, trimmed⟩],
            { db with categories := db.categories ++ [⟨newId, trimmed⟩] }⟩
        else ⟨500, [], db⟩
  else ⟨405, [], db⟩

/-! ## Delete handlers

`deleteOk`-style booleans are oracles for the store's own success or
failure of a write; reads are modelled exactly (including the schema
column check of `queryAssetsEq`/`queryUsersEq`). -/

/-- `DELETE /api/departments/[id]`: referencing users and assets are
looked up first (`Promise.all` destructures only `data`, so a query
error is silently treated as no rows), then the row is deleted. -/
def departmentsIdDelete (env : Env) (resolve : Resolver) (db : Db)
    (authHeader : Option String) (idParam : Option String) (deleteOk : Bool) :
    Nat × Db :=
  if ¬env.adminConfigured then (500, db)
  else
    match verifyAdmin env resolve db authHeader with
    | none => (403, db)
    | some _ =>
      match idParam with
      | none => (400, db)
      | some depId =>
        let usersRows : List UserRow :=
          (((queryUsersEq db "department_id" (.str depId)).toOption).map
            (fun l => l.take 1)).getD []
        let assetRows : List AssetRow :=
          (((queryAssetsEq db "department_id" (.str depId)).toOption).map
            (fun l => l.take 1)).getD []
        if usersRows ≠ [] then (400, db)
        else if assetRows ≠ [] then (400, db)
        else if deleteOk then
          (200, { db with departments := db.departments.filter (fun d => ¬(d.id = depId)) })
        else (500, db)

/-- `DELETE /api/categories/[id]`: the asset-usage check handles its
query error explicitly (500), refuses with 400 when an asset uses the
category, then deletes. -/
def categoriesIdDelete (env : Env) (resolve : Resolver) (db : Db)
    (authHeader : Option String) (idParam : Option String) (deleteOk : Bool) :
    Nat × Db :=
  if ¬env.adminConfigured then (500, db)
  else
    match verifyAdmin env resolve db authHeader with
    | none => (403, db)
    | some _ =>
      match idParam with
      | none => (400, db)
      | some catId =>
        match queryAssetsEq db "category_id" (.str catId) with
        | .error _ => (500, db)
        | .ok rows =>
          if rows.take 1 ≠ [] then (400, db)
          else if deleteOk then
            (200, { db with categories := db.categories.filter (fun c => ¬(c.id = catId)) })
          else (500, db)

/-- The body of `DELETE /api/users/[id]` from the self-delete check on,
parameterised by the result of the assets query so that each path is
addressable: refuse self-delete (400), propagate a failed check (500),
refuse when the check finds rows (400), then delete the
identity-provider account and only afterwards the `users` row, each
step's failure returning 500 and stopping. -/
def deleteUserCore (check : Except Unit (List AssetRow)) (idpDeleteOk dbDeleteOk : Bool)
    (w : World) (targetId callerId : String) : Nat × World :=
  if targetId = callerId then (400, w)
  else
    match check with
    | .error _ => (500, w)
    | .ok rows =>
      if rows.take 1 ≠ [] then (400, w)
      else if ¬idpDeleteOk then (500, w)
      else
        let w1 : World := { w with idp := w.idp.filter (fun i => ¬(i = targetId)) }
        if ¬dbDeleteOk then (500, w1)
        else (200, { w1 with db := { w1.db with
          users := w1.db.users.filter (fun u => ¬(u.id = targetId)) } })

/-- `DELETE /api/users/[id]`: the referencing-assets check filters the
`assets` table on the column `assigned_to` — which `supabase-schema.sql`
does not define (the asset-to-user reference column is `created_by`). -/
def usersIdDelete (env : Env) (resolve : Resolver) (w : World)
    (authHeader : Option String) (idParam : Option String)
    (idpDeleteOk dbDeleteOk : Bool) : Nat × World :=
  if ¬env.adminConfigured then (500, w)
  else
    match verifyAdmin env resolve w.db authHeader with
    | none => (403, w)
    | some caller =>
      match idParam with
      | none => (400, w)
      | some tid =>
        deleteUserCore (queryAssetsEq w.db "assigned_to" (.str tid))
          idpDeleteOk dbDeleteOk w tid caller

/-! ## The admin user-create handler (`POST /api/users/create`) -/

/-- Result of one user-create request; `idpCreateCalled` records whether
`auth.admin.createUser` was invoked. -/
structure UserCreateResult where
  status : Nat
  world : World
  idpCreateCalled : Bool
deriving DecidableEq, Repr

/-- The `user_type` string of a validated `userType` body value. -/
def userTypeString : JsVal → String
  | .str t => t
  | _ => ""

/-- `POST /api/users/create`: validates presence and the two-value
`userType`, rejects an email already in the `users` table with 409
before touching the identity provider, then creates the
identity-provider account and inserts the row as two separate steps.
`authCreateOk`/`dbInsertOk` are failure oracles of the two writes and
`newId` the id the identity provider generates. -/
def usersCreateHandler (env : Env) (resolve : Resolver) (w : World) (method : String)
    (authHeader : Option String) (name email password userType : JsVal)
    (authCreateOk : Bool) (newId : String) (dbInsertOk : Bool) : UserCreateResult :=
  if ¬(method = "POST") then ⟨405, w, false⟩
  else if ¬env.adminConfigured then ⟨500, w, false⟩
  else
    match verifyAdmin env resolve w.db authHeader with
    | none => ⟨403, w, false⟩
    | some _ =>
      if ¬name.truthy ∨ ¬email.truthy ∨ ¬password.truthy ∨ ¬userType.truthy then
        ⟨400, w, false⟩
      else if ¬(userType = .str "admin") ∧ ¬(userType = .str "user") then
        ⟨400, w, false⟩
      else
        match email with
        | .str es =>
          let les := jsToLower es
          match w.db.users.find? (fun u => u.email = les) with
          | some _ => ⟨409, w, false⟩
          | none =>
            if ¬authCreateOk then ⟨500, w, true⟩
            else
              let w1 : World := { w with idp := w.idp ++ [newId] }
              if ¬dbInsertOk then ⟨500, w1, true⟩
              else
                ⟨201, { w1 with db := { w1.db with users := w1.db.users ++
                    [{ id := newId, email := les, name := name,
                       user_type := userTypeString userType }] } }, true⟩
        | _ => ⟨500, w, false⟩

/-! ## The warranty registration proxy (`POST /api/warranties/register`) -/

/-- The fixed-shape payload POSTed to the downstream warranty service. -/
structure WarrantyPayload where
  manufacturer : String
  owner_email : String
  owner_name : JsVal
  owner_phone : JsVal
  product_name : JsVal
  purchase_date : JsVal
  serial_number : JsVal
  warranty_period_months : JsVal
deriving DecidableEq, Repr

/-- `serial_number && serial_number.trim() ? serial_number : asset.id`:
a falsy or whitespace-only serial falls back to the asset id; calling
`.trim()` on a truthy non-string throws (caught as 500). -/
def serialOrAssetId (sn : JsVal) (assetId : String) : Except Unit JsVal :=
  match sn with
  | .str s => if ¬(s = "") ∧ ¬(jsTrim s = "") then .ok (.str s) else .ok (.str assetId)
  | .num n => if ¬(n = 0) then .error () else .ok (.str assetId)
  | _ => .ok (.str assetId)

/-- `POST /api/warranties/register`: loads the asset, enforces
`created_by = caller` (else 403 and no downstream call), assembles the
payload (`warranty_period_months || 12`) and POSTs it; the returned
payload option is `some` exactly when the downstream POST is issued,
with `downstreamOk` the oracle for its success. -/
def warrantyRegisterHandler (env : Env) (resolve : Resolver) (db : Db)
    (method : String) (authHeader : Option String)
    (asset_id owner_phone warranty_period_months serial_number : JsVal)
    (downstreamOk : Bool) : Nat × Option WarrantyPayload :=
  if ¬(method = "POST") then (405, none)
  else if ¬env.adminConfigured then (500, none)
  else
    match verifyAuthUser env resolve authHeader with
    | none => (401, none)
    | some uid =>
      if ¬asset_id.truthy then (400, none)
      else
        match db.assets.find? (fun a => JsVal.str a.id == asset_id) with
        | none => (404, none)
        | some a =>
          if ¬(a.created_by = uid) then (403, none)
          else
            match serialOrAssetId serial_number a.id with
            | .error _ => (500, none)
            | .ok sn =>
              let payload : WarrantyPayload :=
                { manufacturer := "N/A"
                  owner_email := (userEmailOf db a.created_by).getD ""
                  owner_name := jsOrVal (userNameOf db a.created_by) (.str "Unknown")
                  owner_phone := jsOr owner_phone (.str "")
                  product_name := a.name
                  purchase_date := a.date_purchased
                  serial_number := sn
                  warranty_period_months := jsOr warranty_period_months (.num 12) }
              (if downstreamOk then 200 else 500, some payload)

end AssetManager

section Claims
open AssetManager

/-! ## Concrete fixtures used by witnesses and counterexamples -/

/-- A fully configured server. -/
def sampleEnv : Env := ⟨true, true⟩

/-- An identity provider resolving two tokens. -/
def sampleResolve : Resolver := fun t =>
  if t = "tadmin" then some "admin1" else if t = "tuser" then some "u2" else none

/-- A small store: one admin, two users, one department, one category,
and one asset owned by each non-admin user. -/
def sampleDb : Db :=
  { users := [⟨"admin1", "admin@x.com", .str "Admin", "admin"⟩,
              ⟨"u2", "bob@x.com", .str "Bob", "user"⟩,
              ⟨"u3", "carol@x.com", .str "Carol", "user"⟩]
    departments := [⟨"d1", "IT"⟩]
    categories := [⟨"c1", "Electronics"⟩]
    assets := [⟨"a1", .str "Laptop", .str "c1", .str "d1", .str "2024-01-01",
                .num 1000, "u2", 5⟩,
               ⟨"a2", .str "Phone", .str "c1", .str "d1", .str "2024-02-01",
                .num 500, "u3", 7⟩] }

/-- The sample store with its identity-provider account list. -/
def sampleWorld : World := ⟨["admin1", "u2", "u3"], sampleDb⟩

/-! ## C1: non-admin asset listing is scoped to the caller -/

/-- C1: for every authenticated caller whose derived `user_type` is not
`"admin"`, the asset listing responds 200 and every returned row has
`created_by` equal to the caller's id — the `created_by = caller` filter
is part of the query itself. -/
theorem claim_C1_asset_listing_scoped
    (env : Env) (resolve : Resolver) (db : Db) (authHeader : Option String)
    (body : AssetBody) (newId : String) (now : Int) (insertOk : Bool)
    (uid utype : String)
    (henv : env.adminConfigured = true)
    (hauth : verifyAuthAssets env resolve db authHeader = some (uid, utype))
    (hnonadmin : utype ≠ "admin") :
    (assetsHandler env resolve db "GET" authHeader body newId now insertOk).status = 200 ∧
    ∀ a ∈ (assetsHandler env resolve db "GET" authHeader body newId now insertOk).assets,
      a.created_by = uid := by
  have hres : assetsHandler env resolve db "GET" authHeader body newId now insertOk =
      ⟨200, (sortBy assetCreatedDesc
        (db.assets.filter (fun a => decide (a.created_by = uid)))).map
          (transformAsset db), db⟩ := by
    unfold assetsHandler
    simp [henv, hauth, hnonadmin]
  rw [hres]
  refine ⟨rfl, ?_⟩
  intro a ha
  simp only [List.mem_map] at ha
  obtain ⟨b, hb, rfl⟩ := ha
  rw [mem_sortBy] at hb
  simp only [List.mem_filter, decide_eq_true_eq] at hb
  exact hb.2

/-- C1 witness: a concrete non-admin caller sees exactly their own
assets. -/
theorem claim_C1_witness :
    (assetsHandler sampleEnv sampleResolve sampleDb "GET" (some "Bearer tuser")
        ⟨.undef, .undef, .undef, .undef, .undef⟩ "x" 0 true).status = 200 ∧
    ∀ a ∈ (assetsHandler sampleEnv sampleResolve sampleDb "GET" (some "Bearer tuser")
        ⟨.undef, .undef, .undef, .undef, .undef⟩ "x" 0 true).assets,
      a.created_by = "u2" :=
  claim_C1_asset_listing_scoped sampleEnv sampleResolve sampleDb (some "Bearer tuser")
    ⟨.undef, .undef, .undef, .undef, .undef⟩ "x" 0 true "u2" "user"
    (by decide) (by decide) (by decide)

/-! ## C2: warranty registration by a non-owner -/

/-- C2: when the referenced asset exists but its `created_by` differs
from the caller, the warranty-registration handler responds 403 and
issues no downstream POST (the payload option is `none`). -/
theorem claim_C2_warranty_nonowner_403
    (env : Env) (resolve : Resolver) (db : Db) (authHeader : Option String)
    (asset_id owner_phone wpm serial : JsVal) (downstreamOk : Bool)
    (uid : String) (a : AssetRow)
    (henv : env.adminConfigured = true)
    (hauth : verifyAuthUser env resolve authHeader = some uid)
    (htruthy : asset_id.truthy = true)
    (hfind : db.assets.find? (fun x => JsVal.str x.id == asset_id) = some a)
    (hown : ¬(a.created_by = uid)) :
    warrantyRegisterHandler env resolve db "POST" authHeader asset_id owner_phone
      wpm serial downstreamOk = (403, none) := by
  unfold warrantyRegisterHandler
  simp [henv, hauth, htruthy, hfind, hown]

/-- C2 witness: a caller registering a warranty for another user's
asset gets 403 and nothing is sent downstream. -/
theorem claim_C2_witness :
    warrantyRegisterHandler sampleEnv sampleResolve sampleDb "POST"
      (some "Bearer tuser") (.str "a2") .undef .undef .undef true = (403, none) :=
  claim_C2_warranty_nonowner_403 sampleEnv sampleResolve sampleDb
    (some "Bearer tuser") (.str "a2") .undef .undef .undef true "u2"
    ⟨"a2", .str "Phone", .str "c1", .str "d1", .str "2024-02-01", .num 500, "u3", 7⟩
    (by decide) (by decide) (by decide) (by decide) (by decide)

/-! ## C9: the forwarded warranty period -/

/-- C9: whenever the warranty-registration handler issues its downstream
POST, the forwarded `warranty_period_months` is the caller's value if
that value is truthy and the default 12 otherwise; in particular an
absent, null or zero period becomes 12, and a zero-month registration is
impossible. -/
theorem claim_C9_warranty_period_default
    (env : Env) (resolve : Resolver) (db : Db) (method : String)
    (authHeader : Option String) (asset_id owner_phone wpm serial : JsVal)
    (downstreamOk : Bool) (p : WarrantyPayload)
    (hp : (warrantyRegisterHandler env resolve db method authHeader asset_id
        owner_phone wpm serial downstreamOk).2 = some p) :
    p.warranty_period_months = (if wpm.truthy then wpm else .num 12) ∧
    ((wpm = .undef ∨ wpm = .null ∨ wpm = .num 0) → p.warranty_period_months = .num 12) ∧
    (wpm.truthy = true → p.warranty_period_months = wpm) ∧
    ¬(p.warranty_period_months = .num 0) := by
  unfold warrantyRegisterHandler at hp
  repeat' split at hp
  all_goals simp at hp
  all_goals subst hp
  all_goals
    exact ⟨by simp [jsOr],
      (by rintro (rfl | rfl | rfl) <;> simp [jsOr, JsVal.truthy]),
      (by intro ht; simp [jsOr, ht]),
      (by
        by_cases ht : wpm.truthy
        · simp only [jsOr, if_pos ht]
          rintro rfl
          simp [JsVal.truthy] at ht
        · simp only [jsOr, if_neg ht]
          decide)⟩

/-- C9 witness: an explicit `warranty_period_months: 0` is forwarded as
12. -/
theorem claim_C9_witness :
    ({ manufacturer := "N/A", owner_email := "bob@x.com", owner_name := .str "Bob",
       owner_phone := .str "", product_name := .str "Laptop",
       purchase_date := .str "2024-01-01", serial_number := .str "a1",
       warranty_period_months := .num 12 } : WarrantyPayload).warranty_period_months
      = (if (JsVal.num 0).truthy then .num 0 else .num 12) ∧
    ((JsVal.num 0 = .undef ∨ JsVal.num 0 = .null ∨ JsVal.num 0 = .num 0) →
      ({ manufacturer := "N/A", owner_email := "bob@x.com", owner_name := .str "Bob",
         owner_phone := .str "", product_name := .str "Laptop",
         purchase_date := .str "2024-01-01", serial_number := .str "a1",
         warranty_period_months := .num 12 } : WarrantyPayload).warranty_period_months
        = .num 12) ∧
    ((JsVal.num 0).truthy = true →
      ({ manufacturer := "N/A", owner_email := "bob@x.com", owner_name := .str "Bob",
         owner_phone := .str "", product_name := .str "Laptop",
         purchase_date := .str "2024-01-01", serial_number := .str "a1",
         warranty_period_months := .num 12 } : WarrantyPayload).warranty_period_months
        = .num 0) ∧
    ¬(({ manufacturer := "N/A", owner_email := "bob@x.com", owner_name := .str "Bob",
         owner_phone := .str "", product_name := .str "Laptop",
         purchase_date := .str "2024-01-01", serial_number := .str "a1",
         warranty_period_months := .num 12 } : WarrantyPayload).warranty_period_months
       = .num 0) :=
  claim_C9_warranty_period_default sampleEnv sampleResolve sampleDb "POST"
    (some "Bearer tuser") (.str "a1") .undef (.num 0) .undef true
    { manufacturer := "N/A", owner_email := "bob@x.com", owner_name := .str "Bob",
      owner_phone := .str "", product_name := .str "Laptop",
      purchase_date := .str "2024-01-01", serial_number := .str "a1",
      warranty_period_months := .num 12 }
    (by decide)

/-! ## C10: non-atomic two-step user deletion -/

/-- C10: from the point where the reference check has passed, user
deletion removes the identity-provider account first; when that succeeds
and the `users`-row deletion fails the handler returns 500, the
identity-provider account is already gone, and the `users` table is
unchanged. -/
theorem claim_C10_nonatomic_delete
    (w : World) (targetId callerId : String) (hne : ¬(targetId = callerId)) :
    deleteUserCore (.ok []) true false w targetId callerId =
      (500, { w with idp := w.idp.filter (fun i => ¬(i = targetId)) }) ∧
    (deleteUserCore (.ok []) true false w targetId callerId).2.db = w.db ∧
    ¬(targetId ∈ (deleteUserCore (.ok []) true false w targetId callerId).2.idp) := by
  unfold deleteUserCore
  simp [hne, List.mem_filter]

/-- C10 witness: deleting a concrete user with a failing row deletion
leaves the account removed and the row present, with status 500. -/
theorem claim_C10_witness :
    deleteUserCore (.ok []) true false sampleWorld "u2" "admin1" =
      (500, { sampleWorld with
        idp := sampleWorld.idp.filter (fun i => ¬(i = "u2")) }) ∧
    (deleteUserCore (.ok []) true false sampleWorld "u2" "admin1").2.db = sampleWorld.db ∧
    ¬("u2" ∈ (deleteUserCore (.ok []) true false sampleWorld "u2" "admin1").2.idp) :=
  claim_C10_nonatomic_delete sampleWorld "u2" "admin1" (by decide)

/-! ## C3: referential-integrity guards of the delete handlers -/

/-- C3: deleting a department or category referenced by an asset is
refused with 400 and no row is removed; but deleting a user referenced
by an asset (`created_by = "u2"` in the store) answers 500, not 400 —
the handler's reference check filters `assets` on the column
`assigned_to`, which `supabase-schema.sql` does not define, so the check
query errors on every user deletion (the asset-to-user reference column
is `created_by`, which the handler never inspects). -/
theorem claim_C3_delete_guards :
    departmentsIdDelete sampleEnv sampleResolve sampleDb (some "Bearer tadmin")
      (some "d1") true = (400, sampleDb) ∧
    categoriesIdDelete sampleEnv sampleResolve sampleDb (some "Bearer tadmin")
      (some "c1") true = (400, sampleDb) ∧
    usersIdDelete sampleEnv sampleResolve sampleWorld (some "Bearer tadmin")
      (some "u2") true true = (500, sampleWorld) ∧
    (∃ a ∈ sampleDb.assets, a.created_by = "u2") ∧
    ¬((usersIdDelete sampleEnv sampleResolve sampleWorld (some "Bearer tadmin")
        (some "u2") true true).1 = 400) := by decide

/-! ## C5: status codes of the authorization gate -/

/-- C5 counterexample: an admin-gated operation (department create) with
no bearer token at all answers 403, not the claimed 401. -/
theorem claim_C5_counterexample :
    (departmentsHandler sampleEnv sampleResolve sampleDb "POST" none (.str "HR")
      "d9" true).status = 403 ∧
    ¬((departmentsHandler sampleEnv sampleResolve sampleDb "POST" none (.str "HR")
      "d9" true).status = 401) := by decide

/-- C5 amended: operations gated only on authentication (asset listing,
department listing) answer 401 when the token is missing, malformed or
unresolvable; admin-gated operations (department create, user create)
answer 403 both in those cases and when the token resolves to a user
whose `user_type` is not `"admin"` — `verifyAdmin` collapses the two
failures. -/
theorem claim_C5_amended
    (env : Env) (resolve : Resolver) (db : Db) (w : World)
    (authHeader : Option String) (body : AssetBody) (nameBody : JsVal)
    (name email password userType : JsVal)
    (newId : String) (now : Int) (ok : Bool)
    (henv : env.adminConfigured = true) (hw : w.db = db) :
    (verifyAuthAssets env resolve db authHeader = none →
      (assetsHandler env resolve db "GET" authHeader body newId now ok).status = 401) ∧
    (verifyAuthUser env resolve authHeader = none →
      (departmentsHandler env resolve db "GET" authHeader nameBody newId ok).status = 401) ∧
    (verifyAuthUser env resolve authHeader = none →
      (departmentsHandler env resolve db "POST" authHeader nameBody newId ok).status = 403) ∧
    (∀ uid u, verifyAuthUser env resolve authHeader = some uid →
      db.users.find? (fun x => x.id = uid) = some u → ¬(u.user_type = "admin") →
      (departmentsHandler env resolve db "POST" authHeader nameBody newId ok).status = 403) ∧
    (verifyAuthUser env resolve authHeader = none →
      (usersCreateHandler env resolve w "POST" authHeader name email password userType
        ok newId ok).status = 403) := by
  subst hw
  refine ⟨?_, ?_, ?_, ?_, ?_⟩
  · intro hnone
    unfold assetsHandler
    simp [henv, hnone]
  · intro hnone
    unfold departmentsHandler
    simp [henv, hnone]
  · intro hnone
    unfold departmentsHandler verifyAdmin
    simp [henv, hnone]
  · intro uid u hsome hfind hut
    unfold departmentsHandler verifyAdmin
    simp [henv, hsome, hfind, hut]
  · intro hnone
    unfold usersCreateHandler verifyAdmin
    simp [henv, hnone]

/-- C5 witness: on the sample store, a missing token gives 401 on the
department listing but 403 on department create, and a valid non-admin
token also gives 403 on department create. -/
theorem claim_C5_witness :
    (verifyAuthAssets sampleEnv sampleResolve sampleDb none = none →
      (assetsHandler sampleEnv sampleResolve sampleDb "GET" none
        ⟨.undef, .undef, .undef, .undef, .undef⟩ "x" 0 true).status = 401) ∧
    (verifyAuthUser sampleEnv sampleResolve none = none →
      (departmentsHandler sampleEnv sampleResolve sampleDb "GET" none (.str "HR")
        "x" true).status = 401) ∧
    (verifyAuthUser sampleEnv sampleResolve none = none →
      (departmentsHandler sampleEnv sampleResolve sampleDb "POST" none (.str "HR")
        "x" true).status = 403) ∧
    (∀ uid u, verifyAuthUser sampleEnv sampleResolve none = some uid →
      sampleDb.users.find? (fun x => x.id = uid) = some u → ¬(u.user_type = "admin") →
      (departmentsHandler sampleEnv sampleResolve sampleDb "POST" none (.str "HR")
        "x" true).status = 403) ∧
    (verifyAuthUser sampleEnv sampleResolve none = none →
      (usersCreateHandler sampleEnv sampleResolve sampleWorld "POST" none
        (.str "N") (.str "n@x.com") (.str "pw") (.str "user") true "x" true).status
        = 403) :=
  claim_C5_amended sampleEnv sampleResolve sampleDb sampleWorld none
    ⟨.undef, .undef, .undef, .undef, .undef⟩ (.str "HR")
    (.str "N") (.str "n@x.com") (.str "pw") (.str "user") "x" 0 true
    (by decide) (by decide)

/-! ## C6: required-field validation of the create handlers -/

/-- C6 counterexample: an asset create whose `name` is the whitespace-only
string `" "` is accepted with 201 and the row is inserted untrimmed,
instead of the claimed 400 with no insert. -/
theorem claim_C6_counterexample :
    assetsHandler sampleEnv sampleResolve sampleDb "POST" (some "Bearer tuser")
      ⟨.str " ", .str "c1", .str "d1", .str "2024-03-01", .num 10⟩ "a9" 9 true
      = ⟨201, [],
          { sampleDb with assets := sampleDb.assets ++
            [⟨"a9", .str " ", .str "c1", .str "d1", .str "2024-03-01", .num 10,
              "u2", 9⟩] }⟩ := by decide

/-- C6 amended: department and category creates reject a name that is
empty or whitespace-only after trimming with 400 and insert nothing;
user and asset creates validate only JavaScript truthiness of their
required fields, so a whitespace-only string passes and is inserted
untrimmed with 201. -/
theorem claim_C6_amended
    (env : Env) (resolve : Resolver) (db : Db) (w : World)
    (authHeader : Option String) (s : String)
    (newIdD newIdC newIdU newIdA : String) (now : Int)
    (cat dep dat cost email password userType : JsVal) (es : String)
    (uid utype : String)
    (henv : env.adminConfigured = true)
    (hs : ¬(s = "")) (htrim : jsTrim s = "")
    (hadmin : verifyAdmin env resolve db authHeader = some uid)
    (hadminw : verifyAdmin env resolve w.db authHeader = some uid)
    (hauthassets : verifyAuthAssets env resolve db authHeader = some (uid, utype))
    (hemail : email = .str es) (hes : ¬(es = ""))
    (hfresh : w.db.users.find? (fun u => u.email = jsToLower es) = none)
    (hpw : password.truthy = true) (hut : userType = .str "user")
    (hcat : cat.truthy = true) (hdep : dep.truthy = true) (hdat : dat.truthy = true)
    (hcost : ¬(cost = .undef)) :
    departmentsHandler env resolve db "POST" authHeader (.str s) newIdD true
      = ⟨400, [], db⟩ ∧
    categoriesHandler env resolve db "POST" authHeader (.str s) newIdC true
      = ⟨400, [], db⟩ ∧
    usersCreateHandler env resolve w "POST" authHeader (.str s) email password
      userType true newIdU true
      = ⟨201, { idp := w.idp ++ [newIdU], db := { w.db with users := w.db.users ++
          [⟨newIdU, jsToLower es, .str s, "user"⟩] } }, true⟩ ∧
    assetsHandler env resolve db "POST" authHeader ⟨.str s, cat, dep, dat, cost⟩
      newIdA now true
      = ⟨201, [], { db with assets := db.assets ++
          [⟨newIdA, .str s, cat, dep, dat, jsParseFloat cost, uid, now⟩] }⟩ := by
  refine ⟨?_, ?_, ?_, ?_⟩
  · unfold departmentsHandler
    simp [henv, hadmin, trimmedNameOf, htrim]
  · unfold categoriesHandler
    simp [henv, hadmin, trimmedNameOf, htrim]
  · subst hemail hut
    have hnt : (JsVal.str s).truthy = true := by simp [JsVal.truthy, hs]
    have het : (JsVal.str es).truthy = true := by simp [JsVal.truthy, hes]
    have hutt : (JsVal.str "user").truthy = true := by decide
    unfold usersCreateHandler
    simp [henv, hadminw, hfresh, hpw, hnt, het, hutt, userTypeString]
  · have hnt : (JsVal.str s).truthy = true := by simp [JsVal.truthy, hs]
    unfold assetsHandler
    simp [henv, hauthassets, hnt, hcat, hdep, hdat, hcost]

/-- C6 witness: on the sample store, the whitespace-only name
`" "` is rejected by department and category create but accepted and
stored untrimmed by user and asset create. -/
theorem claim_C6_witness :
    departmentsHandler sampleEnv sampleResolve sampleDb "POST" (some "Bearer tadmin")
      (.str " ") "d9" true = ⟨400, [], sampleDb⟩ ∧
    categoriesHandler sampleEnv sampleResolve sampleDb "POST" (some "Bearer tadmin")
      (.str " ") "c9" true = ⟨400, [], sampleDb⟩ ∧
    usersCreateHandler sampleEnv sampleResolve sampleWorld "POST" (some "Bearer tadmin")
      (.str " ") (.str "New@X.com") (.str "pw") (.str "user") true "u9" true
      = ⟨201, { idp := sampleWorld.idp ++ ["u9"],
                db := { sampleWorld.db with users := sampleWorld.db.users ++
                  [⟨"u9", jsToLower "New@X.com", .str " ", "user"⟩] } }, true⟩ ∧
    assetsHandler sampleEnv sampleResolve sampleDb "POST" (some "Bearer tadmin")
      ⟨.str " ", .str "c1", .str "d1", .str "2024-03-01", .num 10⟩ "a8" 8 true
      = ⟨201, [], { sampleDb with assets := sampleDb.assets ++
          [⟨"a8", .str " ", .str "c1", .str "d1", .str "2024-03-01",
            jsParseFloat (.num 10), "admin1", 8⟩] }⟩ :=
  claim_C6_amended sampleEnv sampleResolve sampleDb sampleWorld
    (some "Bearer tadmin") " " "d9" "c9" "u9" "a8" 8
    (.str "c1") (.str "d1") (.str "2024-03-01") (.num 10)
    (.str "New@X.com") (.str "pw") (.str "user") "New@X.com" "admin1" "admin"
    (by decide) (by decide) (by decide) (by decide) (by decide) (by decide)
    (by decide) (by decide) (by decide) (by decide) (by decide) (by decide)
    (by decide) (by decide) (by decide)

/-! ## C7: category create/list round trip -/

/-- C7: creating a category stores the submitted name trimmed (the
caller's `"  Electronics  "` is stored as `"Electronics"`), and a
subsequent listing answers 200 with all categories — the new one
included — in ascending name order. -/
theorem claim_C7_category_roundtrip
    (env : Env) (resolve : Resolver) (db : Db)
    (authHeader1 authHeader2 : Option String) (s : String)
    (newId : String) (nb2 : JsVal) (nid2 : String) (ok2 : Bool)
    (uid uid2 : String)
    (henv : env.adminConfigured = true)
    (hadmin : verifyAdmin env resolve db authHeader1 = some uid)
    (htrim : ¬(jsTrim s = ""))
    (hauth2 : verifyAuthUser env resolve authHeader2 = some uid2) :
    (categoriesHandler env resolve db "POST" authHeader1 (.str s) newId true).status
      = 201 ∧
    (categoriesHandler env resolve db "POST" authHeader1 (.str s) newId true).db.categories
      = db.categories ++ [⟨newId, jsTrim s⟩] ∧
    (categoriesHandler env resolve
        (categoriesHandler env resolve db "POST" authHeader1 (.str s) newId true).db
        "GET" authHeader2 nb2 nid2 ok2).status = 200 ∧
    (⟨newId, jsTrim s⟩ : CategoryRow) ∈
      (categoriesHandler env resolve
        (categoriesHandler env resolve db "POST" authHeader1 (.str s) newId true).db
        "GET" authHeader2 nb2 nid2 ok2).categories ∧
    (categoriesHandler env resolve
        (categoriesHandler env resolve db "POST" authHeader1 (.str s) newId true).db
        "GET" authHeader2 nb2 nid2 ok2).categories.Pairwise
      (fun a b => catNameLe a b = true) := by
  have hs : ¬(s = "") := by
    intro h
    rw [h] at htrim
    exact htrim rfl
  have hpost : categoriesHandler env resolve db "POST" authHeader1 (.str s) newId true
      = ⟨201, [⟨newId, jsTrim s⟩],
          { db with categories := db.categories ++ [⟨newId, jsTrim s⟩] }⟩ := by
    unfold categoriesHandler
    simp [henv, hadmin, trimmedNameOf, htrim, hs]
  have hget : ∀ d : Db, categoriesHandler env resolve d "GET" authHeader2 nb2 nid2 ok2
      = ⟨200, sortBy catNameLe d.categories, d⟩ := by
    intro d
    unfold categoriesHandler
    simp [henv, hauth2]
  rw [hpost, hget]
  refine ⟨rfl, rfl, rfl, ?_, ?_⟩
  · rw [mem_sortBy]
    simp
  · exact pairwise_sortBy catNameLe
      (fun a b => lexLe_total a.name.data b.name.data)
      (fun a b c => lexLe_trans a.name.data b.name.data c.name.data) _

/-- C7 witness: creating `"  Electronics  "` on a store that already has
categories sorted around it stores `"Electronics"` and the subsequent
listing is sorted with the new row present. -/
theorem claim_C7_witness :
    (categoriesHandler sampleEnv sampleResolve sampleDb "POST" (some "Bearer tadmin")
      (.str "  Electronics  ") "c9" true).status = 201 ∧
    (categoriesHandler sampleEnv sampleResolve sampleDb "POST" (some "Bearer tadmin")
      (.str "  Electronics  ") "c9" true).db.categories
      = sampleDb.categories ++ [⟨"c9", jsTrim "  Electronics  "⟩] ∧
    (categoriesHandler sampleEnv sampleResolve
        (categoriesHandler sampleEnv sampleResolve sampleDb "POST"
          (some "Bearer tadmin") (.str "  Electronics  ") "c9" true).db
        "GET" (some "Bearer tuser") .null "x" true).status = 200 ∧
    (⟨"c9", jsTrim "  Electronics  "⟩ : CategoryRow) ∈
      (categoriesHandler sampleEnv sampleResolve
        (categoriesHandler sampleEnv sampleResolve sampleDb "POST"
          (some "Bearer tadmin") (.str "  Electronics  ") "c9" true).db
        "GET" (some "Bearer tuser") .null "x" true).categories ∧
    (categoriesHandler sampleEnv sampleResolve
        (categoriesHandler sampleEnv sampleResolve sampleDb "POST"
          (some "Bearer tadmin") (.str "  Electronics  ") "c9" true).db
        "GET" (some "Bearer tuser") .null "x" true).categories.Pairwise
      (fun a b => catNameLe a b = true) :=
  claim_C7_category_roundtrip sampleEnv sampleResolve sampleDb
    (some "Bearer tadmin") (some "Bearer tuser") "  Electronics  " "c9"
    .null "x" true "admin1" "u2"
    (by decide) (by decide) (by decide) (by decide)

/-! ## C8: duplicate-email user create -/

/-- C8: an admin user-create whose (lower-cased) email is already in the
`users` table answers 409, leaves the identity-provider account list and
the store unchanged, and never calls the identity provider's
account-creation endpoint. -/
theorem claim_C8_duplicate_email
    (env : Env) (resolve : Resolver) (w : World) (authHeader : Option String)
    (name email password userType : JsVal) (authCreateOk : Bool) (newId : String)
    (dbInsertOk : Bool) (es : String) (u : UserRow) (aid : String)
    (henv : env.adminConfigured = true)
    (hadmin : verifyAdmin env resolve w.db authHeader = some aid)
    (hemail : email = .str es) (hes : ¬(es = ""))
    (hu : u ∈ w.db.users) (hdup : u.email = jsToLower es)
    (hname : name.truthy = true) (hpass : password.truthy = true)
    (hut : userType = .str "admin" ∨ userType = .str "user") :
    usersCreateHandler env resolve w "POST" authHeader name email password userType
      authCreateOk newId dbInsertOk = ⟨409, w, false⟩ := by
  subst hemail
  have hfind : ∃ v, w.db.users.find? (fun x => x.email = jsToLower es) = some v := by
    rw [← Option.isSome_iff_exists]
    rw [List.find?_isSome]
    exact ⟨u, hu, by simp [hdup]⟩
  obtain ⟨v, hv⟩ := hfind
  have het : (JsVal.str es).truthy = true := by simp [JsVal.truthy, hes]
  have ha : (JsVal.str "admin").truthy = true := by decide
  have husr : (JsVal.str "user").truthy = true := by decide
  unfold usersCreateHandler
  rcases hut with hut | hut <;> subst hut <;>
    simp [henv, hadmin, hname, hpass, het, ha, husr, hv]

/-- C8 witness: re-creating `bob@x.com` (submitted as `Bob@X.com`)
answers 409 with nothing created. -/
theorem claim_C8_witness :
    usersCreateHandler sampleEnv sampleResolve sampleWorld "POST"
      (some "Bearer tadmin") (.str "Bob Again") (.str "Bob@X.com") (.str "pw")
      (.str "user") true "u9" true = ⟨409, sampleWorld, false⟩ :=
  claim_C8_duplicate_email sampleEnv sampleResolve sampleWorld
    (some "Bearer tadmin") (.str "Bob Again") (.str "Bob@X.com") (.str "pw")
    (.str "user") true "u9" true "Bob@X.com"
    ⟨"u2", "bob@x.com", .str "Bob", "user"⟩ "admin1"
    (by decide) (by decide) (by decide) (by decide) (by decide) (by decide)
    (by decide) (by decide) (Or.inr (by decide))

/-! ## C4: the warranty-status boundary at eleven months -/

/-- C4 counterexample: on 2026-01-15, a warranty registered exactly 11
months earlier (2025-02-15) with a 12-month period classifies as Active
(31 days remain), not the claimed Expiring Soon; the 6-month half of the
claim does hold there. -/
theorem claim_C4_counterexample :
    dateMinusMonths ⟨2026, 1, 15⟩ 11 = ⟨2025, 2, 15⟩ ∧
    getWarrantyStatus (dateMinusMonths ⟨2026, 1, 15⟩ 11) 12 ⟨2026, 1, 15⟩ = .Active ∧
    ¬(getWarrantyStatus (dateMinusMonths ⟨2026, 1, 15⟩ 11) 12 ⟨2026, 1, 15⟩
        = .ExpiringSoon) ∧
    getWarrantyStatus (dateMinusMonths ⟨2026, 1, 15⟩ 11) 6 ⟨2026, 1, 15⟩ = .Expired := by
  decide

/-- C4 amended: for a registration date exactly 11 calendar months
before the current date (any year, day 1–28 so month arithmetic cannot
clamp), a 6-month period always classifies as Expired, while a 12-month
period gives 28–31 days remaining — the length of the current month — so
it classifies as Expiring Soon exactly when the current month is
February and as Active otherwise. -/
theorem claim_C4_amended (y m d : Int) (hm1 : 1 ≤ m) (hm2 : m ≤ 12)
    (hd1 : 1 ≤ d) (hd2 : d ≤ 28) :
    getWarrantyStatus (dateMinusMonths ⟨y, m, d⟩ 11) 6 ⟨y, m, d⟩ = .Expired ∧
    getWarrantyStatus (dateMinusMonths ⟨y, m, d⟩ 11) 12 ⟨y, m, d⟩ =
      (if m = 2 then .ExpiringSoon else .Active) := by
  interval_cases m
  · refine ⟨getWarrantyStatus_expired _ _ _ ?_, ?_⟩
    ·
      simp only [daysRemainingOf, jsAddMonthsDays, dateMinusMonths, daysFromCivil]
      norm_num <;> omega
    · rw [if_neg (by norm_num)]
      refine getWarrantyStatus_active _ _ _ ?_
      simp only [daysRemainingOf, jsAddMonthsDays, dateMinusMonths, daysFromCivil]
      norm_num <;> omega
  · refine ⟨getWarrantyStatus_expired _ _ _ ?_, ?_⟩
    ·
      simp only [daysRemainingOf, jsAddMonthsDays, dateMinusMonths, daysFromCivil]
      norm_num <;> omega
    · rw [if_pos rfl]
      refine getWarrantyStatus_expiringSoon _ _ _ ?_ ?_ <;>
        (simp only [daysRemainingOf, jsAddMonthsDays, dateMinusMonths, daysFromCivil]
         norm_num <;> omega)
  · refine ⟨getWarrantyStatus_expired _ _ _ ?_, ?_⟩
    ·
      simp only [daysRemainingOf, jsAddMonthsDays, dateMinusMonths, daysFromCivil]
      norm_num <;> omega
    · rw [if_neg (by norm_num)]
      refine getWarrantyStatus_active _ _ _ ?_
      simp only [daysRemainingOf, jsAddMonthsDays, dateMinusMonths, daysFromCivil]
      norm_num <;> omega
  · refine ⟨getWarrantyStatus_expired _ _ _ ?_, ?_⟩
    ·
      simp only [daysRemainingOf, jsAddMonthsDays, dateMinusMonths, daysFromCivil]
      norm_num <;> omega
    · rw [if_neg (by norm_num)]
      refine getWarrantyStatus_active _ _ _ ?_
      simp only [daysRemainingOf, jsAddMonthsDays, dateMinusMonths, daysFromCivil]
      norm_num <;> omega
  · refine ⟨getWarrantyStatus_expired _ _ _ ?_, ?_⟩
    ·
      simp only [daysRemainingOf, jsAddMonthsDays, dateMinusMonths, daysFromCivil]
      norm_num <;> omega
    · rw [if_neg (by norm_num)]
      refine getWarrantyStatus_active _ _ _ ?_
      simp only [daysRemainingOf, jsAddMonthsDays, dateMinusMonths, daysFromCivil]
      norm_num <;> omega
  · refine ⟨getWarrantyStatus_expired _ _ _ ?_, ?_⟩
    ·
      simp only [daysRemainingOf, jsAddMonthsDays, dateMinusMonths, daysFromCivil]
      norm_num <;> omega
    · rw [if_neg (by norm_num)]
      refine getWarrantyStatus_active _ _ _ ?_
      simp only [daysRemainingOf, jsAddMonthsDays, dateMinusMonths, daysFromCivil]
      norm_num <;> omega
  · refine ⟨getWarrantyStatus_expired _ _ _ ?_, ?_⟩
    ·
      simp only [daysRemainingOf, jsAddMonthsDays, dateMinusMonths, daysFromCivil]
      norm_num <;> omega
    · rw [if_neg (by norm_num)]
      refine getWarrantyStatus_active _ _ _ ?_
      simp only [daysRemainingOf, jsAddMonthsDays, dateMinusMonths, daysFromCivil]
      norm_num <;> omega
  · refine ⟨getWarrantyStatus_expired _ _ _ ?_, ?_⟩
    ·
      simp only [daysRemainingOf, jsAddMonthsDays, dateMinusMonths, daysFromCivil]
      norm_num <;> omega
    · rw [if_neg (by norm_num)]
      refine getWarrantyStatus_active _ _ _ ?_
      simp only [daysRemainingOf, jsAddMonthsDays, dateMinusMonths, daysFromCivil]
      norm_num <;> omega
  · refine ⟨getWarrantyStatus_expired _ _ _ ?_, ?_⟩
    ·
      simp only [daysRemainingOf, jsAddMonthsDays, dateMinusMonths, daysFromCivil]
      norm_num <;> omega
    · rw [if_neg (by norm_num)]
      refine getWarrantyStatus_active _ _ _ ?_
      simp only [daysRemainingOf, jsAddMonthsDays, dateMinusMonths, daysFromCivil]
      norm_num <;> omega
  · refine ⟨getWarrantyStatus_expired _ _ _ ?_, ?_⟩
    ·
      simp only [daysRemainingOf, jsAddMonthsDays, dateMinusMonths, daysFromCivil]
      norm_num <;> omega
    · rw [if_neg (by norm_num)]
      refine getWarrantyStatus_active _ _ _ ?_
      simp only [daysRemainingOf, jsAddMonthsDays, dateMinusMonths, daysFromCivil]
      norm_num <;> omega
  · refine ⟨getWarrantyStatus_expired _ _ _ ?_, ?_⟩
    ·
      simp only [daysRemainingOf, jsAddMonthsDays, dateMinusMonths, daysFromCivil]
      norm_num <;> omega
    · rw [if_neg (by norm_num)]
      refine getWarrantyStatus_active _ _ _ ?_
      simp only [daysRemainingOf, jsAddMonthsDays, dateMinusMonths, daysFromCivil]
      norm_num <;> omega
  · refine ⟨getWarrantyStatus_expired _ _ _ ?_, ?_⟩
    ·
      simp only [daysRemainingOf, jsAddMonthsDays, dateMinusMonths, daysFromCivil]
      norm_num <;> omega
    · rw [if_neg (by norm_num)]
      refine getWarrantyStatus_active _ _ _ ?_
      simp only [daysRemainingOf, jsAddMonthsDays, dateMinusMonths, daysFromCivil]
      norm_num <;> omega

/-- C4 witness: on 2026-02-15 the 11-months-old registration is
Expiring Soon with a 12-month period and Expired with a 6-month one. -/
theorem claim_C4_witness :
    getWarrantyStatus (dateMinusMonths ⟨2026, 2, 15⟩ 11) 6 ⟨2026, 2, 15⟩ = .Expired ∧
    getWarrantyStatus (dateMinusMonths ⟨2026, 2, 15⟩ 11) 12 ⟨2026, 2, 15⟩ =
      (if (2 : Int) = 2 then .ExpiringSoon else .Active) :=
  claim_C4_amended 2026 2 15 (by decide) (by decide) (by decide) (by decide)

end Claims


